import Mathlib

/-! Verification of the pySWAP configuration/serialization layer.

Python strings are modelled as lists of Unicode codepoints (`List Nat`);
decimal data is modelled over `Rat`.  Each definition below embeds one
function or class of the repository; doc comments name the source.  -/

set_option maxRecDepth 10000

/- ++++++++++++++++ character/string primitives ++++++++++++++++ -/

/-- Codepoints of a Lean string literal, used to write Python strings. -/
def codes (s : String) : List Nat := s.data.map Char.toNat

/-- ASCII digit test, matching the regex class backslash-d on ASCII input. -/
def isDigitCode (c : Nat) : Bool := 48 ≤ c && c ≤ 57

/-- ASCII letter test, matching the regex class [a-zA-Z]. -/
def isAlphaCode (c : Nat) : Bool := (65 ≤ c && c ≤ 90) || (97 ≤ c && c ≤ 122)

/-- ASCII upper-casing of one codepoint (Python str.upper on ASCII data). -/
def upperCode (c : Nat) : Nat := if 97 ≤ c && c ≤ 122 then c - 32 else c

/-- ASCII lower-casing of one codepoint (Python str.lower on ASCII data). -/
def lowerCode (c : Nat) : Nat := if 65 ≤ c && c ≤ 90 then c + 32 else c

/-- Python whitespace characters stripped by str.strip. -/
def wsCode (c : Nat) : Bool := c == 32 || c == 9 || c == 10 || c == 13 || c == 11 || c == 12

/-- Python str.strip: drop whitespace from both ends. -/
def pyStrip (s : List Nat) : List Nat :=
  ((s.dropWhile wsCode).reverse.dropWhile wsCode).reverse

/-- Python str.split on the newline character. -/
def splitNl : List Nat → List (List Nat)
  | [] => [[]]
  | c :: t =>
    if c == 10 then [] :: splitNl t
    else
      match splitNl t with
      | [] => [[c]]
      | l :: ls => (c :: l) :: ls

/-- Python substring test (the `in` operator on str). -/
def pyContains (pat : List Nat) : List Nat → Bool
  | [] => pat.isEmpty
  | c :: t => pat.isPrefixOf (c :: t) || pyContains pat (t)

/- ++++++++++++++++ serializers.py: is_scientific_notation / quote_string ++++++++++++++++ -/

/-- Drop one leading sign character (+ or -), as the regex part [+-]? does. -/
def dropSign1 : List Nat → List Nat
  | [] => []
  | c :: t => if c == 43 || c == 45 then t else c :: t

/-- End-of-match test for a regex anchored with $: Python re matches at the
end of the string or just before one final newline. -/
def endOk : List Nat → Bool
  | [] => true
  | [c] => c == 10
  | _ => false

/-- The exponent digits of the scientific-notation pattern: at least one
digit, then the anchored end. -/
def expDigits : List Nat → Bool
  | [] => false
  | c :: t => isDigitCode c && endOk (t.dropWhile isDigitCode)

/-- The `[eE][+-]?` followed by digits part of the scientific-notation pattern. -/
def expTail : List Nat → Bool
  | [] => false
  | c :: t => (c == 101 || c == 69) && expDigits (dropSign1 t)

/-- Continuation after the first mantissa digit: remaining digits, an
optional fractional part, then the exponent. -/
def afterInt (t : List Nat) : Bool :=
  match t.dropWhile isDigitCode with
  | 46 :: t2 => expTail (t2.dropWhile isDigitCode)
  | r => expTail r

/-- The mantissa-and-exponent body of the pattern
`[+-]?(digits(.digits*)?|.digits+)[eE][+-]?digits` after the sign. -/
def sciBody : List Nat → Bool
  | [] => false
  | c :: t =>
    if isDigitCode c then afterInt t
    else if c == 46 then
      match t with
      | d :: t2 => isDigitCode d && expTail (t2.dropWhile isDigitCode)
      | [] => false
    else false

/-- Embeds serializers.is_scientific_notation: re.match of the anchored
scientific-notation pattern against the whole string. -/
def pyIsScientific (s : List Nat) : Bool := sciBody (dropSign1 s)

/-- The re.search("[a-zA-Z/]", string) test inside quote_string. -/
def hasAlphaOrSlash (s : List Nat) : Bool := s.any (fun c => isAlphaCode c || c == 47)

/-- Embeds serializers.quote_string: scientific notation is returned
upper-cased and unquoted; otherwise strings holding a letter or a slash are
wrapped in single quotes (codepoint 39); all else is returned unchanged. -/
def quote_string (s : List Nat) : List Nat :=
  if pyIsScientific s then s.map upperCode
  else if hasAlphaOrSlash s then 39 :: s ++ [39]
  else s

/- ++++++++++++++++ core/model.py: warning extraction and run ++++++++++++++++ -/

/-- The literal token "warning" matched by Model._identify_warnings. -/
def warningCodes : List Nat := codes "warning"

/-- Embeds Model._identify_warnings: keep the lines of the log whose
stripped, lower-cased text starts with "warning". -/
def identify_warnings (log : List Nat) : List (List Nat) :=
  (splitNl log).filter (fun l => warningCodes.isPrefixOf ((pyStrip l).map lowerCode))

/-- The claim's strict reading of the warning rule: the line itself begins
with the token "warning", case-insensitively, with no stripping. -/
def strictWarnLine (l : List Nat) : Bool :=
  warningCodes.isPrefixOf (l.map lowerCode)

/-- The completion marker Model.run searches the captured output for. -/
def normalCompletion : List Nat := codes "normal completion"

/-- The Result aggregate built by Model.run (model/result construction in
core/model.py); file contents are carried verbatim. -/
structure RunResult where
  summary : List Nat
  output : List Nat
  vap : List Nat
  log : List Nat
  warning : List (List Nat)
deriving DecidableEq

/-- Embeds the decision logic of Model.run after the subprocess returns:
`res` is the captured combined stdout/stderr, `log` the swap_swap.log text,
and `summary`/`output`/`vap` the output files read on success.  When the
completion marker is absent the run raises with the full captured text
appended to the message; otherwise it assembles and returns the Result. -/
def runModel (res log summary output vap : List Nat) : Except (List Nat) RunResult :=
  if pyContains normalCompletion res then
    .ok { summary := summary, output := output, vap := vap, log := log,
          warning := identify_warnings log }
  else
    .error (codes "Model run failed. \n " ++ res)

/- ++++++++++++++++ model/result.py: Result.yearly_summary ++++++++++++++++ -/

/-- A calendar date of the DATETIME index of the csv output. -/
structure PDate where
  year : Nat
  month : Nat
  day : Nat
deriving DecidableEq

/-- One value stored in the Result.output mapping: either a parsed
date-indexed frame (rows of date and numeric payload) or plain text. -/
inductive OutVal (M : Type) where
  | frame (df : List (PDate × M))
  | text (s : List Nat)
deriving DecidableEq

/-- Embeds model/result.Result: log text, the output mapping and the
extracted warnings. -/
structure ResultModel (M : Type) where
  log : Option (List Nat)
  output : List (String × OutVal M)
  warning : List (List Nat)
deriving DecidableEq

/-- Sum of the values of the rows falling in calendar year `y`
(one output bin of pandas resample("YE").sum()). -/
def sumYear {M : Type} [AddCommMonoid M] (df : List (PDate × M)) (y : Nat) : M :=
  ((df.filter (fun p => p.1.year == y)).map (fun p => p.2)).sum

/-- Smallest element of a list of naturals, none when empty. -/
def listMin : List Nat → Option Nat
  | [] => none
  | x :: xs =>
    match listMin xs with
    | none => some x
    | some m => some (if x ≤ m then x else m)

/-- Largest element of a list of naturals, none when empty. -/
def listMax : List Nat → Option Nat
  | [] => none
  | x :: xs =>
    match listMax xs with
    | none => some x
    | some m => some (if x ≤ m then m else x)

/-- pandas df.resample("YE").sum() on a date-indexed frame: one row per
calendar year from the first to the last year of the index (empty years
included with sum zero), each holding that year's column sums. -/
def resampleYearSum {M : Type} [AddCommMonoid M] (df : List (PDate × M)) : List (Nat × M) :=
  match listMin (df.map (fun p => p.1.year)), listMax (df.map (fun p => p.1.year)) with
  | some a, some b => (List.range (b + 1 - a)).map (fun i => (a + i, sumYear df (a + i)))
  | _, _ => []

/-- Embeds Result.yearly_summary: the "csv" entry of the output mapping is
fetched (Result.csv); anything that is not a frame raises TypeError, and a
frame is resampled by calendar year and summed. -/
def yearly_summary {M : Type} [AddCommMonoid M] (r : ResultModel M) :
    Except String (List (Nat × M)) :=
  match r.output.lookup "csv" with
  | some (.frame df) => .ok (resampleYearSum df)
  | _ => .error "CSV file not included in output file formats."

/- ++++++++++++++++ serializers.py: table serializers (claim C8) ++++++++++++++++ -/

/-- A pandas DataFrame as seen by serialize_table: mutable column headers
(strings) over an otherwise untouched body. -/
structure PandasTable (β : Type) where
  headers : List (List Nat)
  body : β

/-- The in-place header mutation of serialize_table:
`table.columns = [header.upper() for header in table.columns]`. -/
def upperHeaders {β : Type} (t : PandasTable β) : PandasTable β :=
  { t with headers := t.headers.map (List.map upperCode) }

/-- Embeds serializers.serialize_table.  `render` stands for the pure pandas
DataFrame.to_string(index=False) of the mutated table; the pair returns the
mutated object (the Python function mutates its argument) and the text. -/
def serialize_table {β : Type} (render : PandasTable β → List Nat)
    (t : PandasTable β) : PandasTable β × List Nat :=
  let t2 := upperHeaders t
  (t2, render t2 ++ [10])

/-- A pandas DataFrame as seen by serialize_csv_table: a Station column of
strings over an otherwise untouched body. -/
structure CsvTable (ρ : Type) where
  station : List (List Nat)
  rest : ρ

/-- The per-cell Station mutation of serialize_csv_table: wrap in single
quotes unless the cell already starts with one. -/
def quoteCell (s : List Nat) : List Nat :=
  if s.head? == some 39 then s else 39 :: s ++ [39]

/-- The in-place Station mutation of serialize_csv_table. -/
def quoteStation {ρ : Type} (t : CsvTable ρ) : CsvTable ρ :=
  { t with station := t.station.map quoteCell }

/-- Embeds serializers.serialize_csv_table.  `render` stands for the pure
pandas DataFrame.to_csv(index=False) of the mutated table. -/
def serialize_csv_table {ρ : Type} (render : CsvTable ρ → List Nat)
    (t : CsvTable ρ) : CsvTable ρ × List Nat :=
  let t2 := quoteStation t
  (t2, render t2)

/- ++++++++++++++++ components/boundary.py: BottomBoundary (claim C1) ++++++++++++++++ -/

/-- A field value of a section: an integer switch, a fixed-precision
decimal, a string, or an embedded table. -/
inductive PyVal where
  | int (n : Nat)
  | dec (q : Rat)
  | str (s : List Nat)
  | table (t : List (List Rat))
deriving DecidableEq

/-- Set fields of an ordered field list: name paired with its value, for the
fields that are not None. -/
def setPairs (fields : List (String × Option PyVal)) : List (String × PyVal) :=
  fields.filterMap (fun p => p.2.map (fun v => (p.1, v)))

/-- Modelled from the spec: SerializableMixin.model_string
(pyswap/utils/mixins.py) is not under src.  Per spec 4.4, a section's set
fields are selected in declared order, honouring the include/exclude policy;
null fields are omitted.  -/
def selectFields (fields : List (String × Option PyVal)) (incl : Option (List String))
    (excl : List String) : List (String × PyVal) :=
  fields.filterMap (fun p =>
    match p.2 with
    | none => none
    | some v =>
      if (match incl with
          | none => true
          | some l => l.contains p.1) && !(excl.contains p.1)
      then some (p.1, v) else none)

/-- Modelled from the spec: the text block of a selected field list, one
NAME = VALUE line per field, values rendered by `render` (per-field
formatting of the Serialization Engine, spec 4.4). -/
def renderBlock (render : PyVal → List Nat) (l : List (String × PyVal)) : List Nat :=
  (l.map (fun p => codes p.1 ++ codes " = " ++ render p.2 ++ [10])).flatten

/-- Modelled from the spec: the generic section serializer over an ordered
field list with an optional include set and an exclude set. -/
def model_string_base (render : PyVal → List Nat) (fields : List (String × Option PyVal))
    (incl : Option (List String)) (excl : List String) : List Nat :=
  renderBlock render (selectFields fields incl excl)

/-- Embeds components/boundary.BottomBoundary: the declared fields, all
optional, in the declaration order of the source class. -/
structure BottomBoundary where
  swbbcfile : Option Nat
  bbcfil : Option (List Nat)
  swbotb : Option Nat
  sw2 : Option Nat
  sw3 : Option Nat
  sw4 : Option Nat
  swbotb3resvert : Option Nat
  swbotb3impl : Option Nat
  swqhbot : Option Nat
  sinave : Option Rat
  sinamp : Option Rat
  sinmax : Option Rat
  shape : Option Rat
  hdrain : Option Rat
  rimlay : Option Rat
  aqave : Option Rat
  aqamp : Option Rat
  aqtmax : Option Rat
  aqper : Option Rat
  cofqha : Option Rat
  cofqhb : Option Rat
  cofqhc : Option Rat
  gwlevel : Option (List (List Rat))
  qbot : Option (List (List Rat))
  haquif : Option (List (List Rat))
  qbot4 : Option (List (List Rat))
  qtab : Option (List (List Rat))
  hbot5 : Option (List (List Rat))
deriving DecidableEq

/-- First part (the integer switches and the string field) of the ordered
field list of a BottomBoundary instance, in source declaration order. -/
def BottomBoundary.fieldA (b : BottomBoundary) : List (String × Option PyVal) :=
  [("swbbcfile", b.swbbcfile.map PyVal.int),
   ("bbcfil", b.bbcfil.map PyVal.str),
   ("swbotb", b.swbotb.map PyVal.int),
   ("sw2", b.sw2.map PyVal.int),
   ("sw3", b.sw3.map PyVal.int),
   ("sw4", b.sw4.map PyVal.int),
   ("swbotb3resvert", b.swbotb3resvert.map PyVal.int),
   ("swbotb3impl", b.swbotb3impl.map PyVal.int),
   ("swqhbot", b.swqhbot.map PyVal.int)]

/-- Second part (the Decimal2f fields) of the ordered field list of a
BottomBoundary instance, in source declaration order. -/
def BottomBoundary.fieldB (b : BottomBoundary) : List (String × Option PyVal) :=
  [("sinave", b.sinave.map PyVal.dec),
   ("sinamp", b.sinamp.map PyVal.dec),
   ("sinmax", b.sinmax.map PyVal.dec),
   ("shape", b.shape.map PyVal.dec),
   ("hdrain", b.hdrain.map PyVal.dec),
   ("rimlay", b.rimlay.map PyVal.dec),
   ("aqave", b.aqave.map PyVal.dec),
   ("aqamp", b.aqamp.map PyVal.dec),
   ("aqtmax", b.aqtmax.map PyVal.dec),
   ("aqper", b.aqper.map PyVal.dec),
   ("cofqha", b.cofqha.map PyVal.dec),
   ("cofqhb", b.cofqhb.map PyVal.dec),
   ("cofqhc", b.cofqhc.map PyVal.dec)]

/-- Third part (the table fields) of the ordered field list of a
BottomBoundary instance, in source declaration order. -/
def BottomBoundary.fieldC (b : BottomBoundary) : List (String × Option PyVal) :=
  [("gwlevel", b.gwlevel.map PyVal.table),
   ("qbot", b.qbot.map PyVal.table),
   ("haquif", b.haquif.map PyVal.table),
   ("qbot4", b.qbot4.map PyVal.table),
   ("qtab", b.qtab.map PyVal.table),
   ("hbot5", b.hbot5.map PyVal.table)]

/-- The complete ordered (name, value) field list of a BottomBoundary
instance, in the declaration order of the source class. -/
def BottomBoundary.fieldList (b : BottomBoundary) : List (String × Option PyVal) :=
  b.fieldA ++ b.fieldB ++ b.fieldC

/-- The file-reference fields of BottomBoundary.model_string's include set
and BottomBoundary.bbc's exclude set. -/
def fileRefNames : List String := ["swbbcfile", "bbcfil"]

/-- Embeds BottomBoundary.model_string: with swbbcfile = 1 only the
file-reference fields are emitted (include set); otherwise the full inline
block is produced. -/
def BottomBoundary.model_string (render : PyVal → List Nat) (b : BottomBoundary) : List Nat :=
  if b.swbbcfile = some 1 then
    model_string_base render b.fieldList (some fileRefNames) []
  else
    model_string_base render b.fieldList none []

/-- Embeds BottomBoundary.bbc: the satellite .bbc text, all set fields
except swbbcfile and bbcfil (exclude set). -/
def BottomBoundary.bbc (render : PyVal → List Nat) (b : BottomBoundary) : List Nat :=
  model_string_base render b.fieldList none fileRefNames

/-- Pure section serialization step (BottomBoundary.model_string does not
mutate the section), shaped as object-and-text like the table serializers. -/
def serializeSection (render : PyVal → List Nat) (b : BottomBoundary) :
    BottomBoundary × List Nat :=
  (b, BottomBoundary.model_string render b)

/- ++++++++++++++++ components/tables.py: RDTB and CFTB (claim C2) ++++++++++++++++ -/

/-- All values of a column within an inclusive numeric range (one pandera
pa.Field(ge, le) column check). -/
def inRangeAll (lo hi : Rat) (l : List Rat) : Bool := l.all (fun v => lo ≤ v && v ≤ hi)

/-- Embeds the RDTB schema data: the two optional axis columns DVS and DNR
and the required RD column, each present or absent. -/
structure RDTBData where
  DVS : Option (List Rat)
  DNR : Option (List Rat)
  RD : Option (List Rat)
deriving DecidableEq

/-- Embeds pandera validation of the RDTB schema as declared in
components/tables.py: DVS optional in DVSRANGE [0..2], DNR optional in
YEARRANGE [0..366], RD required in [0..100]. -/
def RDTB_validate (t : RDTBData) : Bool :=
  (match t.DVS with | none => true | some col => inRangeAll 0 2 col) &&
  (match t.DNR with | none => true | some col => inRangeAll 0 366 col) &&
  (match t.RD with | none => false | some col => inRangeAll 0 100 col)

/-- Embeds the CFTB schema data: the two optional axis columns DVS and DNR
and the optional CF column. -/
structure CFTBData where
  DVS : Option (List Rat)
  DNR : Option (List Rat)
  CF : Option (List Rat)
deriving DecidableEq

/-- Embeds pandera validation of the CFTB schema as declared in
components/tables.py: DVS optional in DVSRANGE [0..2], DNR optional in
YEARRANGE [0..366], CF optional with no range check. -/
def CFTB_validate (t : CFTBData) : Bool :=
  (match t.DVS with | none => true | some col => inRangeAll 0 2 col) &&
  (match t.DNR with | none => true | some col => inRangeAll 0 366 col) &&
  (match t.CF with | none => true | some _ => true)

/-- The claim's exclusivity condition on the semantic axis: exactly one of
the DVS and DNR columns is populated. -/
def exactlyOneAxis (dvs dnr : Option (List Rat)) : Bool :=
  Bool.xor dvs.isSome dnr.isSome

/- ++++++++++++++++ components/crop.py Crop and core/model.py _write_inputs (claim C3) ++++++++++++++++ -/

/-- Embeds components/crop.Crop: the crop section of the .swp file; the
croprotation field carries the CROPFIL column of the rotation table and
cropfiles the name-keyed crop-file mapping (rendered .crp text). -/
structure CropSection where
  swcrop : Option Nat
  rds : Option Rat
  croprotation : List String
  cropfiles : List (String × List Nat)
deriving DecidableEq

/-- Embeds Crop.write_crop: one file is saved per entry of the cropfiles
mapping, named after the entry's key; no other check is performed. -/
def write_crop (c : CropSection) : List String :=
  c.cropfiles.map (fun p => p.1 ++ ".crp")

/-- The inputs Model._write_inputs consults: the crop section plus the
presence flags of the drainage, meteorological and irrigation data. -/
structure ModelInputs where
  crop : CropSection
  drainagefile : Bool
  meteodata : Bool
  irrigationdata : Bool
deriving DecidableEq

/-- Embeds Model._write_inputs: the main .swp file is written, then the
optional satellite files; the Except carries the error a validation step
would raise, and no step of the source raises one. -/
def writeInputs (m : ModelInputs) : Except (List Nat) (List String) :=
  .ok (["swap.swp"]
    ++ (if m.drainagefile then ["swap.dra"] else [])
    ++ (if !m.crop.cropfiles.isEmpty then write_crop m.crop else [])
    ++ (if m.meteodata then ["swap.met"] else [])
    ++ (if m.irrigationdata then ["swap.irg"] else []))

/-- A crop-rotation entry with no matching cropfiles entry by name (the
dangling reference of the claim). -/
def hasDangling (m : ModelInputs) : Bool :=
  m.crop.croprotation.any (fun n => !((m.crop.cropfiles.map (fun p => p.1)).contains n))

/-- Model.run down to the engine-status check: the input files are written
(never failing), then the engine output decides success, as in core/model.py. -/
def fullRun (m : ModelInputs) (res log summary output vap : List Nat) :
    Except (List Nat) (List String × RunResult) :=
  match writeInputs m with
  | .error e => .error e
  | .ok files => (runModel res log summary output vap).map (fun r => (files, r))

/- ++++++++++++++++ atmosphere/meteorology.py weather_kmni (claim C9) ++++++++++++++++ -/

/-- One weather record of the KNMI download, in the provider's raw units
(tenths of a unit; WET is the DR column in tenths of hours). -/
structure KnmiRow where
  tmin : Rat
  tmax : Rat
  etref : Rat
  rain : Rat
  wind : Rat
  wet : Rat
deriving DecidableEq

/-- Embeds the unit recalculation of MeteorologicalData.weather_kmni: the
five columns are multiplied by 0.1 and WET by 0.1 * 24 (float literals
modelled as exact rationals). -/
def kmni_convert (r : KnmiRow) : KnmiRow :=
  { tmin := r.tmin * (1 / 10), tmax := r.tmax * (1 / 10), etref := r.etref * (1 / 10),
    rain := r.rain * (1 / 10), wind := r.wind * (1 / 10),
    wet := r.wet * (1 / 10) * 24 }

/-- The conversion the claim (and the code's own comment and the
DAILYMETEODATA.WET documentation) requires: tenths of hours to a fraction
of a day. -/
def claimedWet (v : Rat) : Rat := v * (1 / 10) / 24

/- ++++++++++++++++ components/simsettings.py GeneralSettings (claim C10) ++++++++++++++++ -/

/-- Modelled from the spec: pyswap.core.defaults.EXTENSIONS is not under
src; the fixed set of known output-kind extensions is taken from the output
switches declared by _ExtensionMixin and the GeneralSettings docstring in
components/simsettings.py. -/
def EXTENSIONS : List String :=
  ["wba", "end", "vap", "bal", "blc", "sba", "ate", "bma", "drf", "swb",
   "ini", "inc", "crp", "str", "irg", "csv", "csv_tz"]

/-- The outcome of GeneralSettings.validate_extensions: the accepted
extensions list and the derived exts sub-section (the _ExtensionMixin
switches, one 0/1 value per known extension). -/
structure GeneralSettingsExts where
  extensions : List String
  exts : List (String × Nat)
deriving DecidableEq

/-- Python ", ".join of a string list, as used in the error message of
validate_extensions. -/
def commaJoin : List String → String
  | [] => ""
  | [s] => s
  | s :: t => s ++ ", " ++ commaJoin t

/-- Embeds GeneralSettings.validate_extensions (a mode="after" pydantic
validator, re-run on every field reassignment through
validate_assignment=True): entries outside EXTENSIONS fail with a message
naming them; otherwise the exts sub-section is rebuilt with switch 1 for
listed extensions and 0 for the rest. -/
def validate_extensions (extensions : List String) : Except String GeneralSettingsExts :=
  let invalid := extensions.filter (fun e => !(EXTENSIONS.contains e))
  if invalid.isEmpty then
    .ok { extensions := extensions,
          exts := EXTENSIONS.map (fun e => (e, if extensions.contains e then 1 else 0)) }
  else
    .error ("Invalid extensions: " ++ commaJoin invalid)

/- ++++++++++++++++ helper lemmas ++++++++++++++++ -/

/-- A string accepted by the scientific-notation pattern starts with a
sign, a dot or a digit. -/
theorem sciHead {s : List Nat} (h : pyIsScientific s = true) :
    ∃ c t, s = c :: t ∧ (c = 43 ∨ c = 45 ∨ c = 46 ∨ isDigitCode c = true) := by
  cases s with
  | nil => simp [pyIsScientific, dropSign1, sciBody] at h
  | cons c t =>
    refine ⟨c, t, rfl, ?_⟩
    by_cases hc : (c == 43 || c == 45) = true
    · simp only [Bool.or_eq_true, beq_iff_eq] at hc
      rcases hc with h43 | h45
      · exact Or.inl h43
      · exact Or.inr (Or.inl h45)
    · have h' : sciBody (c :: t) = true := by
        simpa [pyIsScientific, dropSign1, hc] using h
      unfold sciBody at h'
      by_cases hd : isDigitCode c = true
      · exact Or.inr (Or.inr (Or.inr hd))
      · by_cases h46 : (c == 46) = true
        · simp only [beq_iff_eq] at h46
          exact Or.inr (Or.inr (Or.inl h46))
        · simp [hd, h46] at h'

/-- Upper-casing one of the characters a scientific-notation string can
start with never yields a single quote. -/
theorem upperCode_sci_head_ne_quote {c : Nat}
    (hc : c = 43 ∨ c = 45 ∨ c = 46 ∨ isDigitCode c = true) : upperCode c ≠ 39 := by
  have hrange : c = 43 ∨ c = 45 ∨ c = 46 ∨ (48 ≤ c ∧ c ≤ 57) := by
    rcases hc with h | h | h | h
    · exact Or.inl h
    · exact Or.inr (Or.inl h)
    · exact Or.inr (Or.inr (Or.inl h))
    · simp only [isDigitCode, Bool.and_eq_true, decide_eq_true_eq] at h
      exact Or.inr (Or.inr (Or.inr h))
  have hlt : c < 97 := by omega
  have : upperCode c = c := by
    simp only [upperCode, Bool.and_eq_true, decide_eq_true_eq]
    rw [if_neg]
    intro ⟨h1, _⟩
    omega
  rw [this]
  omega

/-- Claim C7: quote_string wraps its input in single quotes exactly when
the input holds an ASCII letter or a slash and is not scientific notation;
a scientific-notation input is returned upper-cased and unquoted (its first
character is never a quote). -/
theorem quote_string_spec (s : List Nat) :
    (quote_string s = 39 :: s ++ [39] ↔
      (hasAlphaOrSlash s = true ∧ pyIsScientific s = false)) ∧
    (pyIsScientific s = true →
      quote_string s = s.map upperCode ∧ (quote_string s).head? ≠ some 39) := by
  constructor
  · constructor
    · intro h
      by_cases hsci : pyIsScientific s = true
      · exfalso
        have heq : s.map upperCode = 39 :: s ++ [39] := by
          simpa [quote_string, hsci] using h
        have := congrArg List.length heq
        simp [List.length_map, List.length_append] at this
        omega
      · by_cases halpha : hasAlphaOrSlash s = true
        · exact ⟨halpha, by simpa using hsci⟩
        · exfalso
          have heq : s = 39 :: s ++ [39] := by
            simpa [quote_string, hsci, halpha] using h
          have := congrArg List.length heq
          simp [List.length_append] at this
          omega
    · rintro ⟨ha, hn⟩
      simp [quote_string, hn, ha]
  · intro hsci
    refine ⟨by simp [quote_string, hsci], ?_⟩
    obtain ⟨c, t, rfl, hc⟩ := sciHead hsci
    simp only [quote_string, hsci, if_pos, List.map_cons, List.head?_cons]
    intro hbad
    exact upperCode_sci_head_ne_quote hc (by simpa using hbad)

/-- Witness for claim C7 at concrete inputs: "abc" is wrapped in single
quotes and "1.23e-4" is returned unquoted and upper-cased. -/
theorem quote_string_spec_witness :
    quote_string (codes "abc") = 39 :: codes "abc" ++ [39] ∧
    quote_string (codes "1.23e-4") = codes "1.23E-4" := by
  constructor
  · exact (quote_string_spec (codes "abc")).1.mpr ⟨by decide, by decide⟩
  · exact ((quote_string_spec (codes "1.23e-4")).2 (by decide)).1.trans (by decide)

/- ++++++++++++++++ claims C5 and C6: warnings and run status ++++++++++++++++ -/

/-- Counterexample to claim C5 as stated: the log consisting of the single
line " Warning: x" (leading space) yields a warning list holding that line,
although the line does not begin with the token "warning"
(case-insensitively) — the code strips whitespace first. -/
theorem identify_warnings_counterexample :
    identify_warnings (codes " Warning: x") = [codes " Warning: x"] ∧
    strictWarnLine (codes " Warning: x") = false := by constructor <;> decide

/-- Claim C5 (amended): the extracted warning list holds exactly those
lines of the log whose text, after stripping surrounding whitespace, begins
with the literal token "warning" case-insensitively; warnings are
non-fatal — a run whose captured output holds the completion marker still
returns a Result whose warning field is the extracted list. -/
theorem identify_warnings_spec (log l res summary output vap : List Nat)
    (h : pyContains normalCompletion res = true) :
    (l ∈ identify_warnings log ↔
      (l ∈ splitNl log ∧ warningCodes.isPrefixOf ((pyStrip l).map lowerCode) = true)) ∧
    ∃ r : RunResult, runModel res log summary output vap = .ok r ∧
      r.warning = identify_warnings log := by
  constructor
  · simp [identify_warnings, List.mem_filter]
  · exact ⟨⟨summary, output, vap, log, identify_warnings log⟩, by simp [runModel, h], rfl⟩

/-- Witness for claim C5 at the scenario input: the log holding the line
"Warning: groundwater level exceeds profile depth" yields exactly that
line, and a successful run carries it in the Result. -/
theorem identify_warnings_spec_witness :
    ((codes "Warning: groundwater level exceeds profile depth") ∈
      identify_warnings (codes "Warning: groundwater level exceeds profile depth")) ∧
    ∃ r : RunResult,
      runModel (codes "normal completion") (codes "Warning: groundwater level exceeds profile depth")
        [] [] [] = .ok r ∧
      r.warning = identify_warnings (codes "Warning: groundwater level exceeds profile depth") := by
  have h := identify_warnings_spec (codes "Warning: groundwater level exceeds profile depth")
    (codes "Warning: groundwater level exceeds profile depth")
    (codes "normal completion") [] [] [] (by decide)
  exact ⟨h.1.mpr ⟨by decide, by decide⟩, h.2⟩

/-- Claim C6: the run fails exactly when the captured output lacks the
substring "normal completion"; the raised error ends with the full captured
text, and on success the parsed outputs are assembled into a Result. -/
theorem run_normal_completion_spec (res log summary output vap : List Nat) :
    ((runModel res log summary output vap).isOk = true ↔
      pyContains normalCompletion res = true) ∧
    (∀ e, runModel res log summary output vap = .error e → ∃ pre, e = pre ++ res) ∧
    (pyContains normalCompletion res = true →
      runModel res log summary output vap =
        .ok ⟨summary, output, vap, log, identify_warnings log⟩) := by
  refine ⟨?_, ?_, ?_⟩
  · by_cases h : pyContains normalCompletion res = true
    · simp [runModel, h, Except.isOk, Except.toBool]
    · simp [runModel, h, Except.isOk, Except.toBool]
  · intro e he
    by_cases h : pyContains normalCompletion res = true
    · simp [runModel, h] at he
    · refine ⟨codes "Model run failed. \n ", ?_⟩
      simp [runModel, h] at he
      exact he.symm
  · intro h
    simp [runModel, h]

/-- Witness for claim C6 at concrete inputs: output lacking the marker
raises with the captured text attached; output holding it returns a Result. -/
theorem run_normal_completion_spec_witness :
    ((runModel (codes "fatal error in solver") [] [] [] []).isOk = false) ∧
    (∃ pre, codes "Model run failed. \n fatal error in solver" =
      pre ++ codes "fatal error in solver") ∧
    runModel (codes "ok normal completion") (codes "") [] [] [] =
      .ok ⟨[], [], [], codes "", identify_warnings (codes "")⟩ := by
  refine ⟨?_, ?_, ?_⟩
  · have h := (run_normal_completion_spec (codes "fatal error in solver") [] [] [] []).1
    have hn : pyContains normalCompletion (codes "fatal error in solver") = false := by decide
    cases hok : (runModel (codes "fatal error in solver") [] [] [] []).isOk
    · rfl
    · exact absurd (h.mp hok) (by decide)
  · exact (run_normal_completion_spec (codes "fatal error in solver") [] [] [] []).2.1
      (codes "Model run failed. \n fatal error in solver") (by rfl)
  · exact (run_normal_completion_spec (codes "ok normal completion") (codes "") [] [] []).2.2
      (by decide)

/- ++++++++++++++++ claim C4: yearly_summary ++++++++++++++++ -/

/-- listMin is none only on the empty list. -/
theorem listMin_eq_none {l : List Nat} (h : listMin l = none) : l = [] := by
  cases l with
  | nil => rfl
  | cons x xs =>
    exfalso
    cases h2 : listMin xs <;> simp [listMin, h2] at h

/-- The minimum returned by listMin is an element of the list. -/
theorem listMin_mem {l : List Nat} {m : Nat} (h : listMin l = some m) : m ∈ l := by
  induction l generalizing m with
  | nil => simp [listMin] at h
  | cons x xs ih =>
    cases h2 : listMin xs with
    | none =>
      simp [listMin, h2] at h
      simp [h]
    | some m2 =>
      simp [listMin, h2] at h
      by_cases hle : x ≤ m2
      · rw [if_pos hle] at h
        simp [h]
      · rw [if_neg hle] at h
        exact List.mem_cons_of_mem x (ih (h ▸ h2))

/-- The minimum returned by listMin bounds every element from below. -/
theorem listMin_le {l : List Nat} {m : Nat} (h : listMin l = some m) :
    ∀ a ∈ l, m ≤ a := by
  induction l generalizing m with
  | nil => simp [listMin] at h
  | cons x xs ih =>
    intro a ha
    cases h2 : listMin xs with
    | none =>
      have hxs : xs = [] := listMin_eq_none h2
      subst hxs
      simp [listMin] at h
      rcases List.mem_singleton.mp ha with rfl
      omega
    | some m2 =>
      simp [listMin, h2] at h
      have ih2 := ih h2
      rcases List.mem_cons.mp ha with rfl | hmem
      · split at h <;> omega
      · have h3 := ih2 a hmem
        split at h <;> omega

/-- listMax is none only on the empty list. -/
theorem listMax_eq_none {l : List Nat} (h : listMax l = none) : l = [] := by
  cases l with
  | nil => rfl
  | cons x xs =>
    exfalso
    cases h2 : listMax xs <;> simp [listMax, h2] at h

/-- The maximum returned by listMax is an element of the list. -/
theorem listMax_mem {l : List Nat} {m : Nat} (h : listMax l = some m) : m ∈ l := by
  induction l generalizing m with
  | nil => simp [listMax] at h
  | cons x xs ih =>
    cases h2 : listMax xs with
    | none =>
      simp [listMax, h2] at h
      simp [h]
    | some m2 =>
      simp [listMax, h2] at h
      by_cases hle : x ≤ m2
      · rw [if_pos hle] at h
        exact List.mem_cons_of_mem x (ih (h ▸ h2))
      · rw [if_neg hle] at h
        simp [h]

/-- The maximum returned by listMax bounds every element from above. -/
theorem listMax_ge {l : List Nat} {m : Nat} (h : listMax l = some m) :
    ∀ a ∈ l, a ≤ m := by
  induction l generalizing m with
  | nil => simp [listMax] at h
  | cons x xs ih =>
    intro a ha
    cases h2 : listMax xs with
    | none =>
      have hxs : xs = [] := listMax_eq_none h2
      subst hxs
      simp [listMax] at h
      rcases List.mem_singleton.mp ha with rfl
      omega
    | some m2 =>
      simp [listMax, h2] at h
      have ih2 := ih h2
      rcases List.mem_cons.mp ha with rfl | hmem
      · split at h <;> omega
      · have h3 := ih2 a hmem
        split at h <;> omega

/-- A nonempty list has a listMin. -/
theorem listMin_isSome {l : List Nat} (h : l ≠ []) : ∃ m, listMin l = some m := by
  cases l with
  | nil => exact absurd rfl h
  | cons x xs =>
    cases h2 : listMin xs with
    | none => exact ⟨x, by simp [listMin, h2]⟩
    | some m => exact ⟨if x ≤ m then x else m, by simp [listMin, h2]⟩

/-- A nonempty list has a listMax. -/
theorem listMax_isSome {l : List Nat} (h : l ≠ []) : ∃ m, listMax l = some m := by
  cases l with
  | nil => exact absurd rfl h
  | cons x xs =>
    cases h2 : listMax xs with
    | none => exact ⟨x, by simp [listMax, h2]⟩
    | some m => exact ⟨if x ≤ m then m else x, by simp [listMax, h2]⟩

/-- Claim C4: yearly_summary raises when the output mapping has no "csv"
frame; a csv frame whose dates span exactly the calendar years y and y+1
(both present, none outside) yields exactly two rows, each the sum of its
year's values. -/
theorem yearly_summary_spec {M : Type} [AddCommMonoid M] (r : ResultModel M)
    (df : List (PDate × M)) (y : Nat) :
    (r.output.lookup "csv" = none → (yearly_summary r).isOk = false) ∧
    (r.output.lookup "csv" = some (.frame df) →
      (∀ p ∈ df, p.1.year = y ∨ p.1.year = y + 1) →
      (∃ p ∈ df, p.1.year = y) →
      (∃ p ∈ df, p.1.year = y + 1) →
      yearly_summary r = .ok [(y, sumYear df y), (y + 1, sumYear df (y + 1))]) := by
  constructor
  · intro h
    simp [yearly_summary, h, Except.isOk, Except.toBool]
  · intro hcsv hall hy hy1
    have hyIn : y ∈ df.map (fun p => p.1.year) := by
      obtain ⟨p, hp, hpy⟩ := hy
      exact List.mem_map.mpr ⟨p, hp, hpy⟩
    have hy1In : y + 1 ∈ df.map (fun p => p.1.year) := by
      obtain ⟨p, hp, hpy⟩ := hy1
      exact List.mem_map.mpr ⟨p, hp, hpy⟩
    have hallIn : ∀ a ∈ df.map (fun p => p.1.year), a = y ∨ a = y + 1 := by
      intro a ha
      obtain ⟨p, hp, rfl⟩ := List.mem_map.mp ha
      exact hall p hp
    obtain ⟨m, hm⟩ := listMin_isSome (List.ne_nil_of_mem hyIn)
    obtain ⟨mx, hmx⟩ := listMax_isSome (List.ne_nil_of_mem hyIn)
    have hmy : m = y := by
      have h1 := listMin_le hm y hyIn
      rcases hallIn m (listMin_mem hm) with h2 | h2 <;> omega
    have hmxy : mx = y + 1 := by
      have h1 := listMax_ge hmx (y + 1) hy1In
      rcases hallIn mx (listMax_mem hmx) with h2 | h2 <;> omega
    rw [hmy] at hm
    rw [hmxy] at hmx
    have hrange : y + 1 + 1 - y = 2 := by omega
    simp only [yearly_summary, hcsv, resampleYearSum, hm, hmx, hrange]
    rw [show List.range 2 = [0, 1] from rfl]
    simp

/-- Witness for claim C4: a Result without a "csv" output raises; a two-year
daily frame yields exactly the two yearly sums. -/
theorem yearly_summary_spec_witness :
    (yearly_summary (⟨none, [("blc", OutVal.text (codes "x"))], []⟩ : ResultModel Int)).isOk
      = false ∧
    yearly_summary
      (⟨none,
        [("csv", OutVal.frame [(⟨2000, 1, 1⟩, (3 : Int)), (⟨2000, 1, 2⟩, 4), (⟨2001, 5, 1⟩, 10)])],
        []⟩ : ResultModel Int)
      = .ok [(2000, 7), (2001, 10)] := by
  constructor
  · exact (yearly_summary_spec
      (⟨none, [("blc", OutVal.text (codes "x"))], []⟩ : ResultModel Int) [] 0).1 (by rfl)
  · have h := (yearly_summary_spec
      (⟨none,
        [("csv", OutVal.frame [(⟨2000, 1, 1⟩, (3 : Int)), (⟨2000, 1, 2⟩, 4), (⟨2001, 5, 1⟩, 10)])],
        []⟩ : ResultModel Int)
      [(⟨2000, 1, 1⟩, (3 : Int)), (⟨2000, 1, 2⟩, 4), (⟨2001, 5, 1⟩, 10)] 2000).2
      (by rfl) (by decide) (by decide) (by decide)
    refine h.trans (congrArg Except.ok ?_)
    decide

/- ++++++++++++++++ claim C8: serialization idempotence ++++++++++++++++ -/

/-- ASCII upper-casing is idempotent (an upper-cased codepoint is outside
the lower-case range). -/
theorem upperCode_idem (c : Nat) : upperCode (upperCode c) = upperCode c := by
  simp only [upperCode, Bool.and_eq_true, decide_eq_true_eq]
  by_cases h : 97 ≤ c ∧ c ≤ 122
  · rw [if_pos h, if_neg]
    omega
  · rw [if_neg h, if_neg h]

/-- Quoting a Station cell is idempotent (a quoted cell starts with the
quote character). -/
theorem quoteCell_idem (s : List Nat) : quoteCell (quoteCell s) = quoteCell s := by
  by_cases h : (s.head? == some 39) = true
  · simp [quoteCell, h]
  · have h1 : quoteCell s = 39 :: s ++ [39] := by
      simp only [quoteCell]
      rw [if_neg]
      simpa using h
    rw [h1]
    simp only [quoteCell]
    rw [if_pos (by simp)]

/-- The header mutation of serialize_table is idempotent. -/
theorem upperHeaders_idem {β : Type} (t : PandasTable β) :
    upperHeaders (upperHeaders t) = upperHeaders t := by
  simp only [upperHeaders, List.map_map]
  congr 1
  apply List.map_congr_left
  intro h _
  simp only [Function.comp]
  rw [List.map_map]
  apply List.map_congr_left
  intro c _
  exact upperCode_idem c

/-- The Station mutation of serialize_csv_table is idempotent. -/
theorem quoteStation_idem {ρ : Type} (t : CsvTable ρ) :
    quoteStation (quoteStation t) = quoteStation t := by
  simp only [quoteStation, List.map_map]
  congr 1
  apply List.map_congr_left
  intro s _
  simp only [Function.comp]
  exact quoteCell_idem s

/-- Claim C8: serializing the same in-memory object twice yields
byte-identical text, for the header-upper-casing table serializer, the
Station-quoting csv serializer, and section serialization — even though the
first two mutate the object in place. -/
theorem serialization_idempotent {β ρ : Type}
    (render : PandasTable β → List Nat) (render2 : CsvTable ρ → List Nat)
    (render3 : PyVal → List Nat) (t : PandasTable β) (u : CsvTable ρ) (b : BottomBoundary) :
    (serialize_table render (serialize_table render t).1).2 = (serialize_table render t).2 ∧
    (serialize_csv_table render2 (serialize_csv_table render2 u).1).2
      = (serialize_csv_table render2 u).2 ∧
    (serializeSection render3 (serializeSection render3 b).1).2
      = (serializeSection render3 b).2 := by
  refine ⟨?_, ?_, rfl⟩
  · simp only [serialize_table]
    rw [upperHeaders_idem]
  · simp only [serialize_csv_table]
    rw [quoteStation_idem]

/- ++++++++++++++++ claim C9: weather_kmni unit conversions ++++++++++++++++ -/

/-- Claim C9 failing input: for a fully rainy day (DR = 240 tenths of
hours), the five 0.1-scaled columns are exact, but the code turns WET into
576.0 where the tenths-of-hours to day-fraction conversion required by the
claim (and by the code's own comment and the DAILYMETEODATA.WET docs)
gives 1.0. -/
theorem kmni_wet_conversion_bug :
    (kmni_convert ⟨231, 305, 28, 124, 47, 240⟩).tmin = 231 / 10 ∧
    (kmni_convert ⟨231, 305, 28, 124, 47, 240⟩).tmax = 305 / 10 ∧
    (kmni_convert ⟨231, 305, 28, 124, 47, 240⟩).etref = 28 / 10 ∧
    (kmni_convert ⟨231, 305, 28, 124, 47, 240⟩).rain = 124 / 10 ∧
    (kmni_convert ⟨231, 305, 28, 124, 47, 240⟩).wind = 47 / 10 ∧
    (kmni_convert ⟨231, 305, 28, 124, 47, 240⟩).wet = 576 ∧
    claimedWet 240 = 1 ∧
    (kmni_convert ⟨231, 305, 28, 124, 47, 240⟩).wet ≠ claimedWet 240 := by
  refine ⟨?_, ?_, ?_, ?_, ?_, ?_, ?_, ?_⟩ <;> norm_num [kmni_convert, claimedWet]

/- ++++++++++++++++ claims C2: RDTB/CFTB axis exclusivity ++++++++++++++++ -/

/-- Counterexample to claim C2 as stated: a RDTB with both DVS and DNR
populated validates, a RDTB with neither populated validates, and likewise
for CFTB — no exclusivity rule exists. -/
theorem axis_exclusivity_counterexample :
    RDTB_validate ⟨some [1], some [100], some [50]⟩ = true ∧
    exactlyOneAxis (some [(1 : Rat)]) (some [(100 : Rat)]) = false ∧
    RDTB_validate ⟨none, none, some [50]⟩ = true ∧
    exactlyOneAxis (none : Option (List Rat)) (none : Option (List Rat)) = false ∧
    CFTB_validate ⟨some [1], some [100], some [1]⟩ = true ∧
    CFTB_validate ⟨none, none, some [1]⟩ = true := by
  refine ⟨?_, ?_, ?_, ?_, ?_, ?_⟩ <;> decide

/-- Claim C2 (amended): RDTB and CFTB validation applies per-column
optionality and range checks only; whether DVS and DNR are populated
exclusively plays no role — any presence combination passes provided each
present column is in range (and, for RDTB, RD is present and in range). -/
theorem rdtb_cftb_validation_characterization (t : RDTBData) (u : CFTBData) :
    (RDTB_validate t = true ↔
      ((∀ col ∈ t.DVS, inRangeAll 0 2 col = true) ∧
       (∀ col ∈ t.DNR, inRangeAll 0 366 col = true) ∧
       (∃ col, t.RD = some col ∧ inRangeAll 0 100 col = true))) ∧
    (CFTB_validate u = true ↔
      ((∀ col ∈ u.DVS, inRangeAll 0 2 col = true) ∧
       (∀ col ∈ u.DNR, inRangeAll 0 366 col = true))) := by
  constructor
  · cases hdvs : t.DVS <;> cases hdnr : t.DNR <;> cases hrd : t.RD <;>
      simp [RDTB_validate, hdvs, hdnr, hrd, and_assoc]
  · cases hdvs : u.DVS <;> cases hdnr : u.DNR <;> cases hcf : u.CF <;>
      simp [CFTB_validate, hdvs, hdnr, hcf]

/- ++++++++++++++++ claim C3: dangling crop-rotation reference ++++++++++++++++ -/

/-- Counterexample to claim C3 as stated: a model whose crop-rotation table
references "grassd" while the crop-files collection is empty is written out
without any error — no CrossReferenceError exists, input files are written
and the engine invocation proceeds. -/
theorem crossreference_counterexample :
    hasDangling ⟨⟨some 1, some 200, ["grassd"], []⟩, false, false, false⟩ = true ∧
    writeInputs ⟨⟨some 1, some 200, ["grassd"], []⟩, false, false, false⟩
      = .ok ["swap.swp"] := by
  constructor
  · decide
  · rfl

/-- Claim C3 (amended): no cross-reference validation exists; write_crop
writes exactly the files of the crop-files collection, _write_inputs never
fails, and — dangling rotation reference or not — the run proceeds to the
engine invocation, whose captured output alone decides success. -/
theorem dangling_reference_ignored (m : ModelInputs) (res log summary output vap : List Nat)
    (hd : hasDangling m = true) :
    write_crop m.crop = m.crop.cropfiles.map (fun p => p.1 ++ ".crp") ∧
    (writeInputs m).isOk = true ∧
    ((fullRun m res log summary output vap).isOk = true ↔
      pyContains normalCompletion res = true) := by
  refine ⟨rfl, by simp [writeInputs, Except.isOk, Except.toBool], ?_⟩
  by_cases h : pyContains normalCompletion res = true
  · simp [fullRun, writeInputs, runModel, h, Except.isOk, Except.toBool, Except.map]
  · simp [fullRun, writeInputs, runModel, h, Except.isOk, Except.toBool, Except.map]

/-- Witness for the amended claim C3: with the dangling "grassd" reference
of the scenario, the pipeline still reaches the engine and succeeds when
the captured output holds the completion marker. -/
theorem dangling_reference_ignored_witness :
    (fullRun ⟨⟨some 1, some 200, ["grassd"], []⟩, false, false, false⟩
      (codes "normal completion") [] [] [] []).isOk = true := by
  exact (dangling_reference_ignored ⟨⟨some 1, some 200, ["grassd"], []⟩, false, false, false⟩
    (codes "normal completion") [] [] [] [] (by decide)).2.2.mpr (by decide)


/- ++++++++++++++++ claim C10: GeneralSettings extensions ++++++++++++++++ -/

/-- List.contains agrees with membership for strings. -/
theorem contains_true_iff (l : List String) (e : String) : l.contains e = true ↔ e ∈ l := by
  exact List.elem_iff

/-- The invalid-entry filter of validate_extensions is empty exactly when
every entry is a known extension. -/
theorem invalid_nil_iff (extensions : List String) :
    extensions.filter (fun e => !(EXTENSIONS.contains e)) = [] ↔
      ∀ e ∈ extensions, e ∈ EXTENSIONS := by
  rw [List.filter_eq_nil_iff]
  constructor
  · intro h e he
    have h2 := h e he
    simp only [Bool.not_eq_true'] at h2
    have h3 : EXTENSIONS.contains e = true := by
      cases hc : EXTENSIONS.contains e
      · exact absurd hc h2
      · rfl
    exact (contains_true_iff EXTENSIONS e).mp h3
  · intro h e he
    simp only [Bool.not_eq_true']
    intro hc
    rw [(contains_true_iff EXTENSIONS e).mpr (h e he)] at hc
    exact absurd hc (by simp)

/-- Looking up a key of a pair list built by mapping over the key list
returns the mapped value. -/
theorem lookup_map_pairs (f : String → Nat) (l : List String) (e : String) (he : e ∈ l) :
    (l.map (fun x => (x, f x))).lookup e = some (f e) := by
  induction l with
  | nil => simp at he
  | cons a t ih =>
    by_cases hea : (e == a) = true
    · have : e = a := by simpa using hea
      subst this
      simp [List.lookup]
    · rcases List.mem_cons.mp he with rfl | hmem
      · simp at hea
      · simp only [List.map_cons, List.lookup, hea]
        exact ih hmem

/-- Claim C10: validate_extensions succeeds exactly when every entry is a
known extension; on success the exts sub-section holds switch 1 for each
known extension exactly when that extension is listed, and the extensions
list is kept; on failure the message names exactly the invalid entries.
The validator is re-run on each field reassignment
(validate_assignment=True), so the invariant also holds after reassignment. -/
theorem validate_extensions_spec (extensions : List String) :
    ((validate_extensions extensions).isOk = true ↔ ∀ e ∈ extensions, e ∈ EXTENSIONS) ∧
    (∀ g, validate_extensions extensions = .ok g →
      g.extensions = extensions ∧
      ∀ e ∈ EXTENSIONS, g.exts.lookup e = some (if extensions.contains e then 1 else 0)) ∧
    (∀ msg, validate_extensions extensions = .error msg →
      msg = "Invalid extensions: "
        ++ commaJoin (extensions.filter (fun e => !(EXTENSIONS.contains e))) ∧
      extensions.filter (fun e => !(EXTENSIONS.contains e)) ≠ []) := by
  by_cases h : (extensions.filter (fun e => !(EXTENSIONS.contains e))).isEmpty = true
  · have hval : validate_extensions extensions =
        .ok ⟨extensions,
          EXTENSIONS.map (fun e => (e, if extensions.contains e then 1 else 0))⟩ := by
      simp only [validate_extensions]
      rw [if_pos h]
    have hnil := List.isEmpty_iff.mp h
    refine ⟨?_, ?_, ?_⟩
    · rw [hval]
      simp only [Except.isOk, Except.toBool, true_iff]
      exact (invalid_nil_iff extensions).mp hnil
    · intro g hg
      rw [hval] at hg
      cases hg
      refine ⟨rfl, ?_⟩
      intro e he
      exact lookup_map_pairs (fun x => if extensions.contains x then 1 else 0) EXTENSIONS e he
    · intro msg hmsg
      rw [hval] at hmsg
      cases hmsg
  · have hval : validate_extensions extensions =
        .error ("Invalid extensions: "
          ++ commaJoin (extensions.filter (fun e => !(EXTENSIONS.contains e)))) := by
      simp only [validate_extensions]
      rw [if_neg h]
    refine ⟨?_, ?_, ?_⟩
    · rw [hval]
      simp only [Except.isOk, Except.toBool, Bool.false_eq_true, false_iff]
      intro hall
      exact h (List.isEmpty_iff.mpr ((invalid_nil_iff extensions).mpr hall))
    · intro g hg
      rw [hval] at hg
      cases hg
    · intro msg hmsg
      rw [hval] at hmsg
      cases hmsg
      refine ⟨rfl, ?_⟩
      intro hnil
      exact h (List.isEmpty_iff.mpr hnil)

/-- Witness for claim C10: ["csv"] is accepted, ["csv", "nope"] is
rejected with a message naming the invalid entry. -/
theorem validate_extensions_spec_witness :
    (validate_extensions ["csv"]).isOk = true ∧
    (validate_extensions ["csv", "nope"]).isOk = false ∧
    "Invalid extensions: nope" =
      "Invalid extensions: "
        ++ commaJoin (["csv", "nope"].filter (fun e => !(EXTENSIONS.contains e))) := by
  refine ⟨?_, ?_, ?_⟩
  · exact (validate_extensions_spec ["csv"]).1.mpr (by decide)
  · cases hok : (validate_extensions ["csv", "nope"]).isOk
    · rfl
    · exact absurd ((validate_extensions_spec ["csv", "nope"]).1.mp hok) (by decide)
  · exact ((validate_extensions_spec ["csv", "nope"]).2.2 "Invalid extensions: nope" (by rfl)).1

/- ++++++++++++++++ claim C1: BottomBoundary two-mode serialization ++++++++++++++++ -/

/-- With no include or exclude set, selection keeps exactly the set fields. -/
theorem selectFields_none_nil (fields : List (String × Option PyVal)) :
    selectFields fields none [] = setPairs fields := by
  induction fields with
  | nil => rfl
  | cons p t ih =>
    cases hp : p.2 with
    | none => simp [selectFields, setPairs, List.filterMap_cons, hp] at ih ⊢; exact ih
    | some v => simp [selectFields, setPairs, List.filterMap_cons, hp] at ih ⊢; exact ih

/-- With an include set and no exclude set, selection keeps exactly the set
fields whose name is in the include set. -/
theorem selectFields_incl (fields : List (String × Option PyVal)) (incl : List String) :
    selectFields fields (some incl) []
      = (setPairs fields).filter (fun p => incl.contains p.1) := by
  induction fields with
  | nil => rfl
  | cons p t ih =>
    cases hp : p.2 with
    | none => simp [selectFields, setPairs, List.filterMap_cons, hp] at ih ⊢; exact ih
    | some v =>
      by_cases hc : p.1 ∈ incl
      · simp [selectFields, setPairs, List.filterMap_cons, List.filter_cons, hp, hc] at ih ⊢
        exact ih
      · simp [selectFields, setPairs, List.filterMap_cons, List.filter_cons, hp, hc] at ih ⊢
        exact ih

/-- With an exclude set and no include set, selection keeps exactly the set
fields whose name is outside the exclude set. -/
theorem selectFields_excl (fields : List (String × Option PyVal)) (excl : List String) :
    selectFields fields none excl
      = (setPairs fields).filter (fun p => !(excl.contains p.1)) := by
  induction fields with
  | nil => rfl
  | cons p t ih =>
    cases hp : p.2 with
    | none => simp [selectFields, setPairs, List.filterMap_cons, hp] at ih ⊢; exact ih
    | some v =>
      by_cases hc : p.1 ∈ excl
      · simp [selectFields, setPairs, List.filterMap_cons, List.filter_cons, hp, hc] at ih ⊢
        exact ih
      · simp [selectFields, setPairs, List.filterMap_cons, List.filter_cons, hp, hc] at ih ⊢
        exact ih

/-- Claim C1: with swbbcfile = 1, model_string renders only the set fields
among the file-reference fields swbbcfile and bbcfil, and bbc renders
exactly the remaining set fields (neither swbbcfile nor bbcfil); with
swbbcfile not 1, model_string renders the full inline block of all set
fields, in declared order. -/
theorem bottomboundary_swbbcfile_modes (render : PyVal → List Nat) (b : BottomBoundary) :
    (b.swbbcfile = some 1 →
      BottomBoundary.model_string render b
        = renderBlock render
            ((setPairs b.fieldList).filter (fun p => fileRefNames.contains p.1)) ∧
      BottomBoundary.bbc render b
        = renderBlock render
            ((setPairs b.fieldList).filter (fun p => !(fileRefNames.contains p.1)))) ∧
    (b.swbbcfile ≠ some 1 →
      BottomBoundary.model_string render b = renderBlock render (setPairs b.fieldList)) := by
  constructor
  · intro h1
    constructor
    · rw [BottomBoundary.model_string, if_pos h1, model_string_base, selectFields_incl]
    · rw [BottomBoundary.bbc, model_string_base, selectFields_excl]
  · intro h1
    rw [BottomBoundary.model_string, if_neg h1, model_string_base, selectFields_none_nil]

/-- Witness for claim C1 at a concrete BottomBoundary (swbbcfile = 1,
bbcfil = "swap", swbotb = 6, all else unset): the main block holds exactly
the two file-reference fields and the bbc block exactly swbotb. -/
theorem bottomboundary_modes_witness :
    BottomBoundary.model_string (fun _ => [])
      ⟨some 1, some (codes "swap"), some 6, none, none, none, none, none, none, none,
       none, none, none, none, none, none, none, none, none, none, none, none, none,
       none, none, none, none, none⟩
      = renderBlock (fun _ => [])
          [("swbbcfile", PyVal.int 1), ("bbcfil", PyVal.str (codes "swap"))] ∧
    BottomBoundary.bbc (fun _ => [])
      ⟨some 1, some (codes "swap"), some 6, none, none, none, none, none, none, none,
       none, none, none, none, none, none, none, none, none, none, none, none, none,
       none, none, none, none, none⟩
      = renderBlock (fun _ => []) [("swbotb", PyVal.int 6)] := by
  have h := (bottomboundary_swbbcfile_modes (fun _ => [])
    ⟨some 1, some (codes "swap"), some 6, none, none, none, none, none, none, none,
     none, none, none, none, none, none, none, none, none, none, none, none, none,
     none, none, none, none, none⟩).1 rfl
  constructor
  · exact h.1.trans (congrArg (renderBlock (fun _ => [])) (by decide))
  · exact h.2.trans (congrArg (renderBlock (fun _ => [])) (by decide))
